import Mathlib

/-!
# Verification of the burst-pool SPMC dispatch channel

Shallow embedding of `src/lib.rs` (the `burst_pool` crate): the per-receiver
state machine, the slot-based handoff, the eventfd-backed wakeup counter, and
the sender/receiver operations.  Machine pointers (`AtomicPtr<T>`, null or a
payload box) are modelled as `Option`; the eventfd counter (a kernel `u64` in
`EFD_SEMAPHORE` mode) as a `Nat`; Rust panics/asserts as `Except.error`.
-/

namespace BurstPool

/-! ## Receiver states (src/lib.rs lines 171-175)

The source constants: `RS_WAITING = 0` (the spec's IDLE), `RS_PENDING = 1`
(the spec's ARMED), `RS_RUNNING = 2` (the spec's BUSY), `RS_ORPHANED = 3`. -/

def RS_WAITING : Nat := 0
def RS_PENDING : Nat := 1
def RS_RUNNING : Nat := 2
def RS_ORPHANED : Nat := 3

/-- One `Worker<T>` (src/lib.rs lines 166-169): an atomic state word and an
atomic payload pointer (`null` modelled as `none`). -/
structure Worker (α : Type) where
  state : Nat
  slot : Option α
deriving Repr, DecidableEq

/-- The sender-visible channel state: `Sender<T>` (src/lib.rs lines 149-155)
together with the kernel eventfd counter it owns.  `workers` is the
`Vec<Arc<Worker<T>>>`, `nextWorker` the rotating cursor `next_worker`,
`workersToUnblock` the pending-credit accumulator, and `counter` the value of
the semaphore-mode eventfd created in `Sender::new` (line 180). -/
structure Channel (α : Type) where
  workers : List (Worker α)
  nextWorker : Nat
  workersToUnblock : Nat
  counter : Nat
deriving Repr, DecidableEq

/-- `Sender::mk_receiver` (src/lib.rs lines 189-200) allocates a worker with
state `RS_RUNNING` and a null slot. -/
def mkWorker {α : Type} : Worker α := ⟨RS_RUNNING, none⟩

/-- `Sender::mk_receiver`, sender side: push the fresh worker onto the list. -/
def mkReceiver {α : Type} (ch : Channel α) : Channel α :=
  { ch with workers := ch.workers ++ [mkWorker] }

/-! ## enqueue (src/lib.rs lines 226-255) -/

/-- The scan loop of `Sender::enqueue` (src/lib.rs lines 232-244), iterating
over the remaining loop indices of `for i in 0..self.workers.len()`.  Each
iteration performs the `compare_and_swap(RS_WAITING, RS_PENDING, SeqCst)` at
line 235 on worker `(i + next_worker) % len`: on observing `RS_WAITING` the
CAS has written `RS_PENDING` and the loop breaks with the chosen index, the
armed worker, and the updated list; on observing `RS_PENDING` or `RS_RUNNING`
the scan advances; any other observed value is the `panic!` at line 242.
(The `Vec` indexing itself would panic out of bounds; that branch is
unreachable because every `(i + next) % len` is below `len`.) -/
def scanArm {α : Type} (ws : List (Worker α)) (next : Nat) :
    List Nat → Except String (Option (Nat × Worker α × List (Worker α)))
  | [] => .ok none
  | i :: rest =>
    let i2 := (i + next) % ws.length
    match ws[i2]? with
    | none => .error "index out of bounds"
    | some w =>
      if w.state = RS_WAITING then
        let w2 := { w with state := RS_PENDING }
        .ok (some (i2, w2, ws.set i2 w2))
      else if w.state = RS_PENDING ∨ w.state = RS_RUNNING then
        scanArm ws next rest
      else
        .error "enqueue: bad state"

/-- `Sender::enqueue` (src/lib.rs lines 226-255).  The scan runs over the
loop indices `0..len`.  After a successful scan it performs the
`slot.swap(Box::into_raw(x), SeqCst)` at line 247; the
`assert!(ptr.is_null())` at line 248 is the error case.  On success it sets
`next_worker = (i + 1) % len` (line 249), increments `workers_to_unblock`
(line 250) and returns `None` ("accepted"); if the scan found nobody it
returns `Some x` (line 253), touching nothing. -/
def enqueue {α : Type} (ch : Channel α) (x : α) :
    Except String (Channel α × Option α) :=
  match scanArm ch.workers ch.nextWorker (List.range ch.workers.length) with
  | .error e => .error e
  | .ok none => .ok (ch, some x)
  | .ok (some (i, w2, ws)) =>
    match w2.slot with
    | none =>
      .ok ({ workers := ws.set i { w2 with slot := some x },
             nextWorker := (i + 1) % ws.length,
             workersToUnblock := ch.workersToUnblock + 1,
             counter := ch.counter }, none)
    | some _ =>
      .error "enqueue: slot contains non-null ptr"

/-! ## wake_all (src/lib.rs lines 209-213) and Sender drop (lines 302-312) -/

/-- `Sender::wake_all`: write `workers_to_unblock` to the eventfd (the kernel
adds it to the counter) and reset the accumulator to zero.  One syscall. -/
def wakeAll {α : Type} (ch : Channel α) : Channel α :=
  { ch with counter := ch.counter + ch.workersToUnblock,
            workersToUnblock := 0 }

/-- The value `Drop for Sender` writes to the eventfd (src/lib.rs line 309):
`NativeEndian::write_i64(&mut self.eventfd_buf[..], 1)`. -/
def dropWriteValue : Nat := 1

/-- `Drop for Sender` (src/lib.rs lines 302-312): store `RS_ORPHANED` into
every worker's state in a single pass, then make one positive write of
`dropWriteValue` to the eventfd. -/
def dropSender {α : Type} (ch : Channel α) : Channel α :=
  { ch with workers := ch.workers.map (fun w => { w with state := RS_ORPHANED }),
            counter := ch.counter + dropWriteValue }

/-! ## recv (src/lib.rs lines 261-299) -/

/-- Result of a `Receiver::recv` call, plus a `blocked` outcome for a call
still parked inside `poll`. -/
inductive RecvOutcome (α : Type) where
  | ok (x : α)
  | orphaned
  | panicked (msg : String)
  | blocked
deriving Repr, DecidableEq

/-- Observable effects of the wait loop of `recv`: the outcome, the number of
`poll` syscalls that returned, the number of eventfd `read`s performed (each
read decrements the semaphore-mode counter by one), and the final content of
this receiver's slot. -/
structure WaitRes (α : Type) where
  out : RecvOutcome α
  polls : Nat
  reads : Nat
  slotAfter : Option α
deriving Repr, DecidableEq

/-- The wait loop of `Receiver::recv` (src/lib.rs lines 278-298).  `slot` is
the content of this receiver's slot when the loop claims it; `obs` is the
sequence of values of this receiver's state word observed by the
`compare_and_swap(RS_PENDING, RS_RUNNING, SeqCst)` at line 282, one per
returned `poll` (line 281; `poll` is level-triggered and consumes nothing).
Observing `RS_PENDING` breaks the loop: the eventfd `read` at line 295
decrements the counter once, then the `slot.swap(null)` at line 296 empties
the slot, the `assert!(!ptr.is_null())` at line 297 being the panic case.
Observing `RS_WAITING` is a stolen wakeup: `thread::yield_now()` and re-poll
(lines 284-287).  Observing `RS_ORPHANED` returns the error at line 289
without any read.  Anything else is the `panic!` at line 290.  An empty `obs`
is a call still blocked in `poll`. -/
def recvWait {α : Type} (slot : Option α) : List Nat → WaitRes α
  | [] => ⟨.blocked, 0, 0, slot⟩
  | s :: rest =>
    if s = RS_PENDING then
      match slot with
      | some x => ⟨.ok x, 1, 1, none⟩
      | none => ⟨.panicked "recv: slot contains null ptr", 1, 1, none⟩
    else if s = RS_WAITING then
      let r := recvWait slot rest
      { r with polls := r.polls + 1 }
    else if s = RS_ORPHANED then
      ⟨.orphaned, 1, 0, slot⟩
    else
      ⟨.panicked "recv::2: bad state", 1, 0, slot⟩

/-- Outcome of the entry step of `recv`. -/
inductive EnterRes where
  | proceed
  | orphaned
  | panicked (msg : String)
deriving Repr, DecidableEq

/-- The entry of `Receiver::recv` (src/lib.rs lines 273-277): the
`compare_and_swap(RS_RUNNING, RS_WAITING, SeqCst)`.  Returns the outcome and
the state word afterwards: observing `RS_RUNNING` installs `RS_WAITING` and
proceeds to the wait loop; observing `RS_ORPHANED` returns
`Err(RecvError::Orphaned)` immediately; any other observed value is the
`panic!` at line 276. -/
def recvEnter (s : Nat) : EnterRes × Nat :=
  if s = RS_RUNNING then (.proceed, RS_WAITING)
  else if s = RS_ORPHANED then (.orphaned, s)
  else (.panicked "recv::1: bad state", s)

/-- A whole `Receiver::recv` call (src/lib.rs lines 261-299): the entry CAS
followed, only when it proceeds, by the wait loop.  When the entry observes
`RS_ORPHANED` the call returns without issuing any poll or read. -/
def recvRun {α : Type} (state : Nat) (slot : Option α) (obs : List Nat) :
    WaitRes α :=
  match recvEnter state with
  | (.proceed, _) => recvWait slot obs
  | (.orphaned, _) => ⟨.orphaned, 0, 0, slot⟩
  | (.panicked m, _) => ⟨.panicked m, 0, 0, slot⟩

/-! ## Specification-side description of enqueue (spec.md section 4.3)

For the refinement claim the spec's words — "scans the receiver list starting
from `next`", wrapping around, arming "the first receiver" that is IDLE —
are rendered independently as a `find?` over the rotated index sequence. -/

/-- The cursor-rotated scan order over the whole receiver list: indices
`(i + next) % len` for `i = 0, …, len - 1`. -/
def rotation (len next : Nat) : List Nat :=
  (List.range len).map (fun i => (i + next) % len)

/-- Whether the receiver at index `i` is IDLE (state `RS_WAITING`). -/
def isIdleAt {α : Type} (ws : List (Worker α)) (i : Nat) : Bool :=
  match ws[i]? with
  | some w => w.state == RS_WAITING
  | none => false

/-- The first receiver in cursor order whose state is IDLE, per the spec's
description of `enqueue`. -/
def specTarget {α : Type} (ws : List (Worker α)) (next : Nat) : Option Nat :=
  (rotation ws.length next).find? (isIdleAt ws)

/-- Specification-side `enqueue`, following the spec's words (section 4.3):
find the first IDLE receiver from the cursor; publish the payload into its
slot and mark it ARMED, advance `next` to the index immediately after modulo
the list length, increment `pending_credits`, return "accepted" (`none`); if
no receiver qualifies, return the payload unchanged. -/
def enqueueSpec {α : Type} (ch : Channel α) (x : α) : Channel α × Option α :=
  match specTarget ch.workers ch.nextWorker with
  | none => (ch, some x)
  | some i2 =>
    ({ workers := ch.workers.set i2 ⟨RS_PENDING, some x⟩,
       nextWorker := (i2 + 1) % ch.workers.length,
       workersToUnblock := ch.workersToUnblock + 1,
       counter := ch.counter }, none)

/-- The states a worker's word can hold while the `Sender` is alive (only
`Drop for Sender` ever stores `RS_ORPHANED`). -/
def validStates {α : Type} (ws : List (Worker α)) : Prop :=
  ∀ w ∈ ws, w.state = RS_WAITING ∨ w.state = RS_PENDING ∨ w.state = RS_RUNNING

/-- Invariant I1 of the spec: a receiver in IDLE has an empty slot. -/
def slotInvariant {α : Type} (ws : List (Worker α)) : Prop :=
  ∀ w ∈ ws, w.state = RS_WAITING → w.slot = none

/-! ## Interleaved small-step machine

True-parallel executions: the producer thread and each consumer thread are
broken into their atomic instructions (every shared access in `src/lib.rs` is
a `SeqCst` atomic or a syscall on the shared eventfd), and a scheduler picks
which thread performs its next instruction.  Payloads are `Nat`.  Each entry
of `rpcs` tracks one in-flight `recv` invocation of that receiver;
`rDone`/`rOrphaned`/`rPanic` are the final states of the invocation. -/

/-- Program counter of a receiver thread inside `Receiver::recv`. -/
inductive RPc where
  | rRun                -- outside recv (state word is RS_RUNNING or RS_ORPHANED)
  | rWait               -- in the loop, about to block in poll (line 281)
  | rAwake              -- poll returned; about to CAS at line 282
  | rClaimed            -- CAS observed RS_PENDING; about to read the eventfd (line 295)
  | rRead               -- read done; about to swap the slot (line 296)
  | rDone (x : Nat)     -- recv returned Ok(x)
  | rOrphaned           -- recv returned Err(Orphaned)
  | rPanic              -- a panic/assert fired inside recv
deriving Repr, DecidableEq

/-- Program counter of the producer thread. -/
inductive SPc where
  | sIdle                          -- between calls
  | sScan (i : Nat) (x : Nat)      -- in the scan loop of enqueue, attempt i
  | sPublish (i2 : Nat) (x : Nat)  -- CAS armed worker i2; about to swap the slot (line 247)
  | sDead                          -- Sender dropped
  | sPanic                         -- a panic/assert fired inside the sender
deriving Repr, DecidableEq

/-- Shared state plus every thread's program counter. -/
structure Sys where
  workers : List (Worker Nat)
  nextW : Nat
  toUnblock : Nat
  counter : Nat
  spc : SPc
  rpcs : List RPc
deriving Repr, DecidableEq

/-- Scheduler choices: which thread executes its next atomic instruction. -/
inductive Act where
  | aEnqStart (x : Nat)  -- producer calls enqueue(x)
  | aEnqCas              -- one iteration of the scan loop: the CAS at line 235
  | aEnqPub              -- the slot swap / assert / bookkeeping at lines 247-251
  | aWake                -- wake_all: the eventfd write at line 212
  | aDrop                -- Drop for Sender: orphan pass + eventfd write (lines 304-310)
  | aEnter (j : Nat)     -- receiver j: the entry CAS at line 273
  | aPoll (j : Nat)      -- receiver j: poll returns (line 281; needs counter > 0, consumes nothing)
  | aClaim (j : Nat)     -- receiver j: the CAS at line 282
  | aRead (j : Nat)      -- receiver j: the eventfd read at line 295 (decrements)
  | aSwap (j : Nat)      -- receiver j: the slot swap + assert at lines 296-297
deriving Repr, DecidableEq

/-- One atomic instruction of the designated thread; `none` when that thread
is not at that instruction or is blocked in the corresponding syscall. -/
def step (s : Sys) (a : Act) : Option Sys :=
  match a with
  | .aEnqStart x =>
    match s.spc with
    | .sIdle => some { s with spc := .sScan 0 x }
    | _ => none
  | .aEnqCas =>
    match s.spc with
    | .sScan i x =>
      if i < s.workers.length then
        let i2 := (i + s.nextW) % s.workers.length
        match s.workers[i2]? with
        | some w =>
          if w.state = RS_WAITING then
            some { s with workers := s.workers.set i2 { w with state := RS_PENDING },
                          spc := .sPublish i2 x }
          else if w.state = RS_PENDING ∨ w.state = RS_RUNNING then
            some { s with spc := .sScan (i + 1) x }
          else
            some { s with spc := .sPanic }
        | none => none
      else
        some { s with spc := .sIdle }  -- scan exhausted: enqueue returns Some x
    | _ => none
  | .aEnqPub =>
    match s.spc with
    | .sPublish i2 x =>
      match s.workers[i2]? with
      | some w =>
        match w.slot with
        | none =>
          some { s with workers := s.workers.set i2 { w with slot := some x },
                        nextW := (i2 + 1) % s.workers.length,
                        toUnblock := s.toUnblock + 1,
                        spc := .sIdle }
        | some _ =>
          some { s with workers := s.workers.set i2 { w with slot := some x },
                        spc := .sPanic }
      | none => none
    | _ => none
  | .aWake =>
    match s.spc with
    | .sIdle => some { s with counter := s.counter + s.toUnblock, toUnblock := 0 }
    | _ => none
  | .aDrop =>
    match s.spc with
    | .sIdle =>
      some { s with workers := s.workers.map (fun w => { w with state := RS_ORPHANED }),
                    counter := s.counter + dropWriteValue,
                    spc := .sDead }
    | _ => none
  | .aEnter j =>
    match s.rpcs[j]?, s.workers[j]? with
    | some .rRun, some w =>
      if w.state = RS_RUNNING then
        some { s with workers := s.workers.set j { w with state := RS_WAITING },
                      rpcs := s.rpcs.set j .rWait }
      else if w.state = RS_ORPHANED then
        some { s with rpcs := s.rpcs.set j .rOrphaned }
      else
        some { s with rpcs := s.rpcs.set j .rPanic }
    | _, _ => none
  | .aPoll j =>
    match s.rpcs[j]? with
    | some .rWait =>
      if 0 < s.counter then some { s with rpcs := s.rpcs.set j .rAwake } else none
    | _ => none
  | .aClaim j =>
    match s.rpcs[j]?, s.workers[j]? with
    | some .rAwake, some w =>
      if w.state = RS_PENDING then
        some { s with workers := s.workers.set j { w with state := RS_RUNNING },
                      rpcs := s.rpcs.set j .rClaimed }
      else if w.state = RS_WAITING then
        some { s with rpcs := s.rpcs.set j .rWait }  -- stolen wakeup: yield, re-poll
      else if w.state = RS_ORPHANED then
        some { s with rpcs := s.rpcs.set j .rOrphaned }
      else
        some { s with rpcs := s.rpcs.set j .rPanic }
    | _, _ => none
  | .aRead j =>
    match s.rpcs[j]? with
    | some .rClaimed =>
      if 0 < s.counter then
        some { s with counter := s.counter - 1, rpcs := s.rpcs.set j .rRead }
      else none
    | _ => none
  | .aSwap j =>
    match s.rpcs[j]?, s.workers[j]? with
    | some .rRead, some w =>
      match w.slot with
      | some x =>
        some { s with workers := s.workers.set j { w with slot := none },
                      rpcs := s.rpcs.set j (.rDone x) }
      | none => some { s with rpcs := s.rpcs.set j .rPanic }
    | _, _ => none

/-- Run a schedule: apply the chosen atomic instructions in order. -/
def run (s : Sys) (acts : List Act) : Option Sys :=
  acts.foldlM step s

/-- Initial system: a fresh `Sender` with two receivers made by
`mk_receiver` (state `RS_RUNNING`, null slot), both consumer threads about to
call `recv`. -/
def sys0 : Sys :=
  ⟨[mkWorker, mkWorker], 0, 0, 0, .sIdle, [.rRun, .rRun]⟩

/-- Schedule reaching a state where worker 1 is ARMED (`RS_PENDING`) with an
empty slot: both receivers enter `recv`; `enqueue(10)` arms worker 0 and
publishes; `wake_all` flushes one credit; receiver 1 polls (level-triggered),
loses the claim race (stolen wakeup) and re-polls; `enqueue(20)`'s CAS arms
worker 1 but the producer is preempted before the slot swap at line 247. -/
def c4TraceA : List Act :=
  [.aEnter 0, .aEnter 1, .aEnqStart 10, .aEnqCas, .aEnqPub, .aWake,
   .aPoll 1, .aClaim 1, .aPoll 1, .aEnqStart 20, .aEnqCas]

/-- Continuation of `c4TraceA`: receiver 1 claims the ARMED state, reads the
eventfd, and swaps its still-null slot — the assert at line 297 fires. -/
def c4TraceB : List Act :=
  c4TraceA ++ [.aClaim 1, .aRead 1, .aSwap 1]

/-- The same interleaving continued for claim C1: the producer finishes
`enqueue(20)` (the publish at line 247 succeeds, so the call returns
"accepted") and flushes the credit with `wake_all`; receiver 0 then delivers
payload 10.  The flushed burst carrying payload 20 can never be delivered:
the only thread that can read worker 1's slot has panicked. -/
def c1Trace : List Act :=
  [.aEnter 0, .aEnter 1, .aEnqStart 10, .aEnqCas, .aEnqPub, .aWake,
   .aPoll 1, .aClaim 1, .aPoll 1, .aEnqStart 20, .aEnqCas,
   .aClaim 1, .aRead 1, .aSwap 1,
   .aEnqPub, .aWake, .aPoll 0, .aClaim 0, .aRead 0, .aSwap 0]

/-- The state reached by `c1Trace`: payload 10 delivered to receiver 0,
receiver 1 panicked, payload 20 stranded in worker 1's slot, counter drained. -/
def c1Final : Sys :=
  ⟨[⟨RS_RUNNING, none⟩, ⟨RS_RUNNING, some 20⟩], 0, 0, 0, .sIdle,
   [.rDone 10, .rPanic]⟩

/-- The state reached by `c4TraceA`: worker 1 is ARMED with an empty slot
while the producer sits between the arming CAS and the slot publish. -/
def c4Mid : Sys :=
  ⟨[⟨RS_PENDING, some 10⟩, ⟨RS_PENDING, none⟩], 1, 0, 1, .sPublish 1 20,
   [.rWait, .rAwake]⟩

/-- The state reached by `c4TraceB`: receiver 1 hit the null-slot assert. -/
def c4End : Sys :=
  ⟨[⟨RS_PENDING, some 10⟩, ⟨RS_RUNNING, none⟩], 1, 0, 0, .sPublish 1 20,
   [.rWait, .rPanic]⟩

/-- Receiver program counters from which the invocation never moves again. -/
def RPc.terminal : RPc → Bool
  | .rDone _ => true
  | .rOrphaned => true
  | .rPanic => true
  | _ => false

/-! # Theorems -/

/-! ## Helper lemmas -/

theorem specTarget_idle {α : Type} {ws : List (Worker α)} {next i2 : Nat}
    (h : specTarget ws next = some i2) :
    ∃ w, ws[i2]? = some w ∧ w.state = RS_WAITING := by
  have hp := List.find?_some h
  unfold isIdleAt at hp
  cases hw : ws[i2]? with
  | none => rw [hw] at hp; cases hp
  | some w =>
    rw [hw] at hp
    exact ⟨w, rfl, by simpa using hp⟩

/-- Characterization of the enqueue scan loop: for any list of loop indices it
agrees with `find?` of the IDLE predicate over the corresponding rotated
indices, provided no worker word holds an illegal value. -/
theorem scanArm_char {α : Type} (ws : List (Worker α)) (next : Nat)
    (hv : validStates ws) (hpos : 0 < ws.length) :
    ∀ l : List Nat,
      ((l.map (fun i => (i + next) % ws.length)).find? (isIdleAt ws) = none →
        scanArm ws next l = .ok none) ∧
      (∀ i2 w,
        (l.map (fun i => (i + next) % ws.length)).find? (isIdleAt ws) = some i2 →
        ws[i2]? = some w →
        scanArm ws next l =
          .ok (some (i2, { w with state := RS_PENDING },
                     ws.set i2 { w with state := RS_PENDING }))) := by
  intro l
  induction l with
  | nil =>
    refine ⟨fun _ => rfl, fun i2 w hfind _ => ?_⟩
    simp at hfind
  | cons i rest ih =>
    have h2 : (i + next) % ws.length < ws.length := Nat.mod_lt _ hpos
    have hw2 : ws[(i + next) % ws.length]? = some ws[(i + next) % ws.length] :=
      List.getElem?_eq_getElem h2
    by_cases hst : ws[(i + next) % ws.length].state = RS_WAITING
    · have hidle : isIdleAt ws ((i + next) % ws.length) = true := by
        simp [isIdleAt, hw2, hst]
      constructor
      · intro hfind
        rw [List.map_cons, List.find?_cons_of_pos _ hidle] at hfind
        cases hfind
      · intro i2 w hfind hw
        rw [List.map_cons, List.find?_cons_of_pos _ hidle] at hfind
        cases hfind
        rw [hw2] at hw
        cases hw
        simp only [scanArm, hw2]
        rw [if_pos hst]
    · have hidle : isIdleAt ws ((i + next) % ws.length) = false := by
        simp [isIdleAt, hw2, hst]
      have hbusy : ws[(i + next) % ws.length].state = RS_PENDING ∨
          ws[(i + next) % ws.length].state = RS_RUNNING := by
        rcases hv _ (List.getElem_mem h2) with h | h | h
        · exact absurd h hst
        · exact Or.inl h
        · exact Or.inr h
      have hstep : scanArm ws next (i :: rest) = scanArm ws next rest := by
        simp only [scanArm, hw2]
        rw [if_neg hst, if_pos hbusy]
      constructor
      · intro hfind
        rw [List.map_cons, List.find?_cons_of_neg _ (by simp [hidle])] at hfind
        rw [hstep]
        exact (ih.1) hfind
      · intro i2 w hfind hw
        rw [List.map_cons, List.find?_cons_of_neg _ (by simp [hidle])] at hfind
        rw [hstep]
        exact (ih.2) i2 w hfind hw

/-- `enqueue` refines the spec-side description whenever every state word is
legal for a live `Sender` and invariant I1 holds. -/
theorem enqueue_eq_spec {α : Type} (ch : Channel α) (x : α)
    (hv : validStates ch.workers) (h1 : slotInvariant ch.workers) :
    enqueue ch x = .ok (enqueueSpec ch x) := by
  obtain ⟨ws, next, credits, counter⟩ := ch
  by_cases hlen : ws.length = 0
  · have hnil : ws = [] := List.eq_nil_of_length_eq_zero hlen
    subst hnil
    rfl
  · have hpos : 0 < ws.length := Nat.pos_of_ne_zero hlen
    have hchar := scanArm_char ws next hv hpos (List.range ws.length)
    cases hfind : specTarget ws next with
    | none =>
      have hs := hchar.1 (by simpa [specTarget, rotation] using hfind)
      simp only [enqueue, enqueueSpec, hfind, hs]
    | some i2 =>
      obtain ⟨w, hw, hst⟩ := specTarget_idle hfind
      have hs := hchar.2 i2 w (by simpa [specTarget, rotation] using hfind) hw
      have hslot : w.slot = none := by
        have hmem : w ∈ ws := by
          have h2 : i2 < ws.length := by
            by_contra hge
            rw [List.getElem?_eq_none (Nat.le_of_not_lt hge)] at hw
            cases hw
          have := List.getElem?_eq_getElem h2
          rw [this] at hw
          cases hw
          exact List.getElem_mem h2
        exact h1 w hmem hst
      simp only [enqueue, enqueueSpec, hfind, hs, hslot]
      rw [List.set_set, List.length_set]

/-! ## Claim theorems -/

/-- Claim C2: `enqueue(payload)` scans the receiver list from the cursor
`next`, wrapping around; at the first receiver whose state goes IDLE→ARMED it
publishes the payload into that receiver's slot, sets `next` to the index
immediately after that receiver modulo the list length, increments
`pending_credits` by one and returns "accepted" (`none`); if no receiver in
the whole list succeeds it returns the payload unchanged, leaving `next` and
`pending_credits` unmodified.  Stated as agreement with the spec-side
`enqueueSpec`, for every channel whose state words are legal for a live
`Sender` and which satisfies invariant I1. -/
theorem c2_enqueue_matches_spec {α : Type} (ch : Channel α) (x : α)
    (hv : validStates ch.workers) (h1 : slotInvariant ch.workers) :
    enqueue ch x = .ok (enqueueSpec ch x) :=
  enqueue_eq_spec ch x hv h1

/-- Witness for C2 on a concrete channel: worker 0 busy, worker 1 idle. -/
theorem c2_enqueue_matches_spec_w :
    validStates ([⟨RS_RUNNING, none⟩, ⟨RS_WAITING, none⟩] : List (Worker Nat)) ∧
    slotInvariant ([⟨RS_RUNNING, none⟩, ⟨RS_WAITING, none⟩] : List (Worker Nat)) ∧
    enqueue (⟨[⟨RS_RUNNING, none⟩, ⟨RS_WAITING, none⟩], 0, 0, 0⟩ : Channel Nat) 5 =
      .ok (enqueueSpec (⟨[⟨RS_RUNNING, none⟩, ⟨RS_WAITING, none⟩], 0, 0, 0⟩ : Channel Nat) 5) :=
  ⟨by intro w hw; fin_cases hw <;> simp [RS_RUNNING, RS_WAITING, RS_PENDING],
   by intro w hw; fin_cases hw <;> simp [RS_RUNNING, RS_WAITING],
   c2_enqueue_matches_spec _ 5
     (by intro w hw; fin_cases hw <;> simp [RS_RUNNING, RS_WAITING, RS_PENDING])
     (by intro w hw; fin_cases hw <;> simp [RS_RUNNING, RS_WAITING])⟩

/-- Claim C3: the `recv` wait loop is the non-consuming design — it parks in a
level-triggered poll that never decrements the counter (a blocked or stolen
iteration performs zero eventfd reads), a stolen wakeup (observing IDLE) just
re-polls, and only a successful claim (observing ARMED) performs the single
eventfd read of the call, after which the payload is taken from the slot,
leaving it empty; the Orphaned path performs no read. -/
theorem c3_recv_wait_loop {α : Type} (slot : Option α) (obs : List Nat) :
    (∀ x, (recvWait slot obs).out = .ok x →
      slot = some x ∧ (recvWait slot obs).reads = 1 ∧
        (recvWait slot obs).slotAfter = none) ∧
    ((recvWait slot obs).out = .orphaned →
      (recvWait slot obs).reads = 0 ∧ (recvWait slot obs).slotAfter = slot) ∧
    ((recvWait slot obs).out = .blocked → (recvWait slot obs).reads = 0) ∧
    recvWait slot (RS_WAITING :: obs) =
      { recvWait slot obs with polls := (recvWait slot obs).polls + 1 } := by
  have hsteal : recvWait slot (RS_WAITING :: obs) =
      { recvWait slot obs with polls := (recvWait slot obs).polls + 1 } := by
    simp [recvWait, RS_WAITING, RS_PENDING]
  have hmain : (∀ x, (recvWait slot obs).out = .ok x →
      slot = some x ∧ (recvWait slot obs).reads = 1 ∧
        (recvWait slot obs).slotAfter = none) ∧
      ((recvWait slot obs).out = .orphaned →
        (recvWait slot obs).reads = 0 ∧ (recvWait slot obs).slotAfter = slot) ∧
      ((recvWait slot obs).out = .blocked → (recvWait slot obs).reads = 0) := by
    induction obs with
    | nil => simp [recvWait]
    | cons s rest ih =>
      by_cases hp : s = RS_PENDING
      · subst hp
        cases slot <;> simp [recvWait, RS_PENDING]
      · by_cases hwv : s = RS_WAITING
        · subst hwv
          simpa [recvWait, RS_WAITING, RS_PENDING] using ih
        · by_cases ho : s = RS_ORPHANED
          · subst ho
            simp [recvWait, RS_ORPHANED, RS_PENDING, RS_WAITING]
          · simp [recvWait, hp, hwv, ho]
  exact ⟨hmain.1, hmain.2.1, hmain.2.2, hsteal⟩

/-- Witness for C3: a stolen wakeup followed by a genuine delivery of payload
4 performs exactly one eventfd read and empties the slot. -/
theorem c3_recv_wait_loop_w :
    (some 4 = some 4 ∧ (recvWait (some 4) [RS_PENDING]).reads = 1 ∧
      (recvWait (some 4) [RS_PENDING]).slotAfter = none) ∧
    recvWait (some 4) (RS_WAITING :: [RS_PENDING]) =
      { recvWait (some 4) [RS_PENDING] with
        polls := (recvWait (some 4) [RS_PENDING]).polls + 1 } :=
  ⟨(c3_recv_wait_loop (some 4) [RS_PENDING]).1 4 (by decide),
   (c3_recv_wait_loop (some 4) [RS_PENDING]).2.2.2⟩

/-- Claim C5, counterexample: for a `Sender` with zero receivers, `Drop`
still writes 1 to the WakeObject, which is *not* "at most the receiver
count". -/
theorem c5_counterexample :
    (dropSender (⟨[], 0, 0, 0⟩ : Channel Nat)).counter = 1 ∧
    (⟨[], 0, 0, 0⟩ : Channel Nat).workers.length = 0 ∧
    ¬ ((dropSender (⟨[], 0, 0, 0⟩ : Channel Nat)).counter -
         (⟨[], 0, 0, 0⟩ : Channel Nat).counter ≤
       (⟨[], 0, 0, 0⟩ : Channel Nat).workers.length) := by
  refine ⟨rfl, rfl, ?_⟩
  decide

/-- Claim C5 as amended: when the `Sender` is destroyed, every receiver's
state is stored as ORPHANED in a single pass, followed by a single positive
write of exactly 1 to the WakeObject (at most the receiver count whenever at
least one receiver exists); every subsequent `recv` call on such a receiver
returns Orphaned without waiting, and a currently blocked `recv` observes
ORPHANED at its next claim and returns Orphaned. -/
theorem c5_drop_amended {α : Type} (ch : Channel α) :
    (∀ w ∈ (dropSender ch).workers, w.state = RS_ORPHANED) ∧
    (dropSender ch).counter = ch.counter + dropWriteValue ∧
    dropWriteValue = 1 ∧
    (0 < ch.workers.length → dropWriteValue ≤ ch.workers.length) ∧
    (∀ w ∈ (dropSender ch).workers, ∀ (slot : Option α) (obs : List Nat),
      recvRun w.state slot obs = ⟨.orphaned, 0, 0, slot⟩) ∧
    (∀ (slot : Option α) (obs : List Nat),
      recvWait slot (RS_ORPHANED :: obs) = ⟨.orphaned, 1, 0, slot⟩) := by
  have horph : ∀ w ∈ (dropSender ch).workers, w.state = RS_ORPHANED := by
    intro w hw
    simp only [dropSender, List.mem_map] at hw
    obtain ⟨w0, _, rfl⟩ := hw
    rfl
  refine ⟨horph, rfl, rfl, fun h => h, ?_, ?_⟩
  · intro w hw slot obs
    rw [recvRun, recvEnter, if_neg (by rw [horph w hw]; decide), if_pos (horph w hw)]
  · intro slot obs
    simp [recvWait, RS_ORPHANED, RS_PENDING, RS_WAITING]

/-- Witness for C5's amended theorem on a one-receiver channel. -/
theorem c5_drop_amended_w :
    (∀ w ∈ (dropSender (⟨[⟨RS_RUNNING, none⟩], 0, 0, 0⟩ : Channel Nat)).workers,
      w.state = RS_ORPHANED) ∧
    recvWait (some 9) (RS_ORPHANED :: []) = ⟨.orphaned, 1, 0, some 9⟩ :=
  ⟨(c5_drop_amended (⟨[⟨RS_RUNNING, none⟩], 0, 0, 0⟩ : Channel Nat)).1,
   (c5_drop_amended (⟨[], 0, 0, 0⟩ : Channel Nat)).2.2.2.2.2 (some 9) []⟩

/-- Claim C6: on entry, `recv` attempts the BUSY→IDLE transition; if the
observed prior state is ORPHANED it returns Orphaned immediately, with no
poll and no read; any observed value other than BUSY or ORPHANED aborts as a
logic error; observing BUSY installs IDLE and `recv` proceeds to the wait
loop. -/
theorem c6_recv_entry (s : Nat) :
    (s = RS_ORPHANED → recvEnter s = (.orphaned, s) ∧
      ∀ (slot : Option Nat) (obs : List Nat),
        recvRun s slot obs = ⟨.orphaned, 0, 0, slot⟩) ∧
    (s = RS_RUNNING → recvEnter s = (.proceed, RS_WAITING) ∧
      ∀ (slot : Option Nat) (obs : List Nat),
        recvRun s slot obs = recvWait slot obs) ∧
    (s ≠ RS_RUNNING → s ≠ RS_ORPHANED →
      (recvEnter s).1 = .panicked "recv::1: bad state") := by
  refine ⟨fun h => ?_, fun h => ?_, fun h1 h2 => ?_⟩
  · subst h
    exact ⟨rfl, fun slot obs => rfl⟩
  · subst h
    exact ⟨rfl, fun slot obs => rfl⟩
  · rw [recvEnter, if_neg h1, if_neg h2]

/-- Witness for C6 at the three concrete entry states 3 (ORPHANED),
2 (BUSY) and 7 (illegal). -/
theorem c6_recv_entry_w :
    (recvEnter RS_ORPHANED = (.orphaned, RS_ORPHANED) ∧
      ∀ (slot : Option Nat) (obs : List Nat),
        recvRun RS_ORPHANED slot obs = ⟨.orphaned, 0, 0, slot⟩) ∧
    (recvEnter RS_RUNNING = (.proceed, RS_WAITING) ∧
      ∀ (slot : Option Nat) (obs : List Nat),
        recvRun RS_RUNNING slot obs = recvWait slot obs) ∧
    (recvEnter 7).1 = .panicked "recv::1: bad state" :=
  ⟨(c6_recv_entry RS_ORPHANED).1 rfl, (c6_recv_entry RS_RUNNING).2.1 rfl,
   (c6_recv_entry 7).2.2 (by decide) (by decide)⟩

/-- Claim C7: `wake_all` adds the current `pending_credits` to the WakeObject
counter in one write and resets `pending_credits` to zero, touching nothing
else; called with zero pending credits it leaves the counter unchanged. -/
theorem c7_wake_all {α : Type} (ch : Channel α) :
    (wakeAll ch).counter = ch.counter + ch.workersToUnblock ∧
    (wakeAll ch).workersToUnblock = 0 ∧
    (wakeAll ch).workers = ch.workers ∧
    (wakeAll ch).nextWorker = ch.nextWorker ∧
    (ch.workersToUnblock = 0 → (wakeAll ch).counter = ch.counter) :=
  ⟨rfl, rfl, rfl, rfl, fun h => by simp [wakeAll, h]⟩

/-- Witness for C7 on a channel with zero pending credits. -/
theorem c7_wake_all_w :
    (wakeAll (⟨[], 0, 0, 5⟩ : Channel Nat)).counter =
      (⟨[], 0, 0, 5⟩ : Channel Nat).counter :=
  (c7_wake_all (⟨[], 0, 0, 5⟩ : Channel Nat)).2.2.2.2 rfl

/-- Claim C9, counterexample: the scan of `enqueue` does *not* treat every
non-IDLE observed value as "busy, try the next receiver" — observing
ORPHANED aborts (the `panic!` at line 242). -/
theorem c9_counterexample :
    enqueue (⟨[⟨RS_ORPHANED, none⟩], 0, 0, 0⟩ : Channel Nat) 5 =
      .error "enqueue: bad state" := rfl

/-- Claim C9 as amended: a failed arming CAS observing ARMED or BUSY makes
`enqueue` move on to the next receiver; any other observed value (ORPHANED
included — unreachable while a `Sender` is alive, since only its `Drop`
stores ORPHANED) aborts as a logic error. -/
theorem c9_amended {α : Type} (ws : List (Worker α)) (next i : Nat)
    (rest : List Nat) (w : Worker α)
    (hw : ws[(i + next) % ws.length]? = some w) :
    ((w.state = RS_PENDING ∨ w.state = RS_RUNNING) →
      scanArm ws next (i :: rest) = scanArm ws next rest) ∧
    (w.state ≠ RS_WAITING → w.state ≠ RS_PENDING → w.state ≠ RS_RUNNING →
      scanArm ws next (i :: rest) = .error "enqueue: bad state") := by
  constructor
  · intro h
    have h0 : w.state ≠ RS_WAITING := by
      rcases h with h | h <;> rw [h] <;> decide
    simp only [scanArm, hw]
    rw [if_neg h0, if_pos h]
  · intro h0 h1 h2
    simp only [scanArm, hw]
    rw [if_neg h0, if_neg (by rintro (h | h) <;> [exact h1 h; exact h2 h])]

/-- Witness for C9's amended theorem: a BUSY receiver is skipped, an
ORPHANED one aborts the scan. -/
theorem c9_amended_w :
    scanArm ([⟨RS_RUNNING, none⟩] : List (Worker Nat)) 0 [0] =
      scanArm ([⟨RS_RUNNING, none⟩] : List (Worker Nat)) 0 [] ∧
    scanArm ([⟨RS_ORPHANED, none⟩] : List (Worker Nat)) 0 [0] =
      .error "enqueue: bad state" :=
  ⟨(c9_amended [⟨RS_RUNNING, none⟩] 0 0 [] ⟨RS_RUNNING, none⟩ rfl).1
     (Or.inr rfl),
   (c9_amended [⟨RS_ORPHANED, none⟩] 0 0 [] ⟨RS_ORPHANED, none⟩ rfl).2
     (by decide) (by decide) (by decide)⟩

/-- Claim C10: on a `Sender` with an empty receiver list, `enqueue` returns
the payload unchanged and does not panic — the scan loop body (and with it
the modulo by the list length) never runs — leaving the cursor and
`pending_credits` unmodified. -/
theorem c10_enqueue_empty (x n c k : Nat) :
    enqueue (⟨[], n, c, k⟩ : Channel Nat) x = .ok (⟨[], n, c, k⟩, some x) := rfl

/-! ## Terminal receiver states are absorbing in the interleaved machine -/

theorem step_terminal {s t : Sys} {a : Act} {j : Nat} {p : RPc}
    (hp : s.rpcs[j]? = some p) (ht : p.terminal = true) (h : step s a = some t) :
    t.rpcs[j]? = some p := by
  have hset : ∀ (k : Nat) (q q' : RPc), s.rpcs[k]? = some q → q.terminal = false →
      (s.rpcs.set k q')[j]? = some p := by
    intro k q q' hk hq
    rcases eq_or_ne k j with rfl | hkj
    · rw [hp] at hk
      cases hk
      rw [ht] at hq
      cases hq
    · rw [List.getElem?_set_ne hkj]
      exact hp
  cases a <;> simp only [step] at h <;>
    (repeat' split at h) <;>
    (try cases h) <;>
    first
      | exact hp
      | exact hset _ _ _ (by assumption) (by rfl)

theorem run_terminal {j : Nat} {p : RPc} (ht : p.terminal = true) :
    ∀ (acts : List Act) (s t : Sys), s.rpcs[j]? = some p →
      run s acts = some t → t.rpcs[j]? = some p := by
  intro acts
  induction acts with
  | nil =>
    intro s t hp h
    cases h
    exact hp
  | cons a rest ih =>
    intro s t hp h
    rw [run, List.foldlM_cons] at h
    cases hstep : step s a with
    | none => rw [hstep] at h; cases h
    | some s1 =>
      rw [hstep] at h
      exact ih s1 t (step_terminal hp ht hstep) h

/-- Claim C4, violated: the interleaved machine reaches a state (`c4Mid`,
via the legal schedule `c4TraceA`) in which worker 1 is ARMED with an empty
slot — `enqueue` writes ARMED at line 235 before publishing the slot at
line 247 — and three steps later (`c4TraceB`) the woken receiver claims that
ARMED state, reads the eventfd and swaps a null slot, so the fatal assertion
at line 297 fires. -/
theorem c4_invariant_violated :
    run sys0 c4TraceA = some c4Mid ∧
    c4Mid.workers[1]? = some ⟨RS_PENDING, none⟩ ∧
    run sys0 c4TraceB = some c4End ∧
    c4End.rpcs[1]? = some .rPanic :=
  ⟨rfl, rfl, rfl, rfl⟩

/-- Claim C1, violated: along the legal schedule `c1Trace`, `enqueue(20)`
returns "accepted" and its burst is flushed by `wake_all`, yet in the
reached state `c1Final` receiver 0 has delivered payload 10 of the first
burst, receiver 1 has panicked on the null-slot assertion, payload 20 is
stranded in worker 1's slot with the counter drained — and in every
continuation of the run receiver 1 stays panicked, so no `recv` ever
returns payload 20: the flushed burst of K = 1 accepted enqueues yields 0
successful `recv` returns. -/
theorem c1_conservation_violated :
    run sys0 c1Trace = some c1Final ∧
    c1Final.rpcs = [.rDone 10, .rPanic] ∧
    c1Final.workers[1]? = some ⟨RS_RUNNING, some 20⟩ ∧
    c1Final.counter = 0 ∧
    (∀ (acts : List Act) (t : Sys), run c1Final acts = some t →
      t.rpcs[1]? = some .rPanic) :=
  ⟨rfl, rfl, rfl, rfl, fun acts t h => @run_terminal 1 RPc.rPanic rfl acts c1Final t rfl h⟩

/-- Witness for C1's continuation clause, instantiated at the empty
continuation. -/
theorem c1_conservation_violated_w : c1Final.rpcs[1]? = some RPc.rPanic :=
  c1_conservation_violated.2.2.2.2 [] c1Final rfl

/-- Claim C8, counterexample: a receiver is parked in `recv`; `enqueue(7)`
returns "accepted"; the `Sender` is dropped.  The drop pass overwrites the
ARMED state with ORPHANED, the blocked `recv` observes ORPHANED and returns
Orphaned, and payload 7 — accepted, never returned to the caller — stays
stranded in the slot, undelivered. -/
theorem c8_counterexample :
    enqueue (⟨[⟨RS_WAITING, none⟩], 0, 0, 0⟩ : Channel Nat) 7 =
      .ok (⟨[⟨RS_PENDING, some 7⟩], 0, 1, 0⟩, none) ∧
    dropSender (⟨[⟨RS_PENDING, some 7⟩], 0, 1, 0⟩ : Channel Nat) =
      ⟨[⟨RS_ORPHANED, some 7⟩], 0, 1, 1⟩ ∧
    recvWait (some 7) [RS_ORPHANED] =
      (⟨.orphaned, 1, 0, some 7⟩ : WaitRes Nat) :=
  ⟨rfl, rfl, rfl⟩

/-- Claim C8 as amended: if `enqueue` returns "accepted", the payload has
been published into the slot of a receiver the call armed, and an accepted
payload is never handed back to the caller — `enqueue` returns a payload,
with the channel untouched, only when it refuses it.  Acceptance alone does
not guarantee delivery: the armed receiver's `recv` returns the payload
exactly when its claim observes ARMED after the publish; if the `Sender` is
dropped before the claim, the receiver returns Orphaned and the payload is
discarded in place, undelivered; and if the claim races between the arming
CAS (line 235) and the publish (line 247), the receiver aborts on the
null-slot assertion and the payload is stranded undelivered even though the
`Sender` is never dropped — shown on the concrete dropless schedule
`c1Trace`, where the accepted, flushed payload 20 can never be returned by
any `recv`. -/
theorem c8_amended_delivery :
    (∀ (ch ch2 : Channel Nat) (x : Nat),
      validStates ch.workers → slotInvariant ch.workers →
      enqueue ch x = .ok (ch2, none) →
      ∃ i2 : Nat, ch2.workers[i2]? = some (⟨RS_PENDING, some x⟩ : Worker Nat)) ∧
    (∀ (ch ch2 : Channel Nat) (x y : Nat),
      validStates ch.workers → slotInvariant ch.workers →
      enqueue ch x = .ok (ch2, some y) →
      ch2 = ch ∧ y = x ∧ specTarget ch.workers ch.nextWorker = none) ∧
    (∀ (x : Nat) (obs : List Nat),
      recvWait (some x) (RS_PENDING :: obs) = ⟨.ok x, 1, 1, none⟩) ∧
    (∀ (ch : Channel Nat),
      (dropSender ch).workers.map Worker.slot = ch.workers.map Worker.slot ∧
      ∀ w ∈ (dropSender ch).workers, w.state = RS_ORPHANED) ∧
    (∀ (slot : Option Nat) (obs : List Nat),
      recvWait slot (RS_ORPHANED :: obs) = ⟨.orphaned, 1, 0, slot⟩) ∧
    (∀ (obs : List Nat),
      recvWait (none : Option Nat) (RS_PENDING :: obs) =
        ⟨.panicked "recv: slot contains null ptr", 1, 1, none⟩) ∧
    (Act.aDrop ∉ c1Trace ∧
      run sys0 c1Trace = some c1Final ∧
      c1Final.workers[1]? = some (⟨RS_RUNNING, some 20⟩ : Worker Nat) ∧
      c1Final.rpcs[1]? = some RPc.rPanic ∧
      ∀ (acts : List Act) (t : Sys), run c1Final acts = some t →
        t.rpcs[1]? = some RPc.rPanic) := by
  refine ⟨?_, ?_, ?_, ?_, ?_, ?_, ?_⟩
  · intro ch ch2 x hv h1 he
    rw [enqueue_eq_spec ch x hv h1] at he
    cases hfind : specTarget ch.workers ch.nextWorker with
    | none =>
      simp [enqueueSpec, hfind] at he
    | some i2 =>
      obtain ⟨w, hw, _⟩ := specTarget_idle hfind
      have hlen : i2 < ch.workers.length := by
        by_contra hge
        rw [List.getElem?_eq_none (Nat.le_of_not_lt hge)] at hw
        cases hw
      simp only [enqueueSpec, hfind] at he
      have hc : ({ workers := ch.workers.set i2 ⟨RS_PENDING, some x⟩,
                   nextWorker := (i2 + 1) % ch.workers.length,
                   workersToUnblock := ch.workersToUnblock + 1,
                   counter := ch.counter } : Channel Nat) = ch2 :=
        congrArg Prod.fst (Except.ok.inj he)
      subst hc
      exact ⟨i2, List.getElem?_set_self hlen⟩
  · intro ch ch2 x y hv h1 he
    rw [enqueue_eq_spec ch x hv h1] at he
    cases hfind : specTarget ch.workers ch.nextWorker with
    | none =>
      simp only [enqueueSpec, hfind] at he
      have hp := Except.ok.inj he
      exact ⟨(congrArg Prod.fst hp).symm,
             (Option.some.inj (congrArg Prod.snd hp)).symm, rfl⟩
    | some i2 =>
      simp only [enqueueSpec, hfind] at he
      have hp := congrArg Prod.snd (Except.ok.inj he)
      cases hp
  · intro x obs
    simp [recvWait, RS_PENDING]
  · intro ch
    constructor
    · simp [dropSender]
    · intro w hw
      simp only [dropSender, List.mem_map] at hw
      obtain ⟨w0, _, rfl⟩ := hw
      rfl
  · intro slot obs
    simp [recvWait, RS_ORPHANED, RS_PENDING, RS_WAITING]
  · intro obs
    simp [recvWait, RS_PENDING]
  · exact ⟨by decide, rfl, rfl, rfl,
      fun acts t h => @run_terminal 1 RPc.rPanic rfl acts c1Final t rfl h⟩

/-- Witness for the amended C8 theorem: acceptance of payload 7 with the armed
slot published; refusal of payload 5 with the channel untouched; delivery
when the claim sees ARMED after the publish; abort when the claim sees ARMED
before the publish; and the panicked receiver of the dropless stranding
schedule. -/
theorem c8_amended_delivery_w :
    (∃ i2 : Nat, (⟨[⟨RS_PENDING, some 7⟩], 0, 1, 0⟩ : Channel Nat).workers[i2]? =
      some (⟨RS_PENDING, some 7⟩ : Worker Nat)) ∧
    ((⟨[⟨RS_RUNNING, none⟩], 0, 0, 0⟩ : Channel Nat) =
        ⟨[⟨RS_RUNNING, none⟩], 0, 0, 0⟩ ∧
      (5 : Nat) = 5 ∧
      specTarget ([⟨RS_RUNNING, none⟩] : List (Worker Nat)) 0 = none) ∧
    recvWait (some 7) (RS_PENDING :: []) = (⟨.ok 7, 1, 1, none⟩ : WaitRes Nat) ∧
    recvWait (none : Option Nat) (RS_PENDING :: []) =
      (⟨.panicked "recv: slot contains null ptr", 1, 1, none⟩ : WaitRes Nat) ∧
    c1Final.rpcs[1]? = some RPc.rPanic :=
  ⟨c8_amended_delivery.1 ⟨[⟨RS_WAITING, none⟩], 0, 0, 0⟩
     ⟨[⟨RS_PENDING, some 7⟩], 0, 1, 0⟩ 7
     (by intro w hw; fin_cases hw; simp [RS_WAITING, RS_PENDING, RS_RUNNING])
     (by intro w hw; fin_cases hw; simp [RS_WAITING])
     rfl,
   c8_amended_delivery.2.1 ⟨[⟨RS_RUNNING, none⟩], 0, 0, 0⟩
     ⟨[⟨RS_RUNNING, none⟩], 0, 0, 0⟩ 5 5
     (by intro w hw; fin_cases hw; simp [RS_WAITING, RS_PENDING, RS_RUNNING])
     (by intro w hw; fin_cases hw; simp [RS_WAITING, RS_RUNNING])
     rfl,
   c8_amended_delivery.2.2.1 7 [],
   c8_amended_delivery.2.2.2.2.2.1 [],
   c8_amended_delivery.2.2.2.2.2.2.2.2.2.2 [] c1Final rfl⟩

end BurstPool
